import Mathlib

/-!
Verification of the geodatacheck validation engine (src/backend/validation)
against its natural-language specification.

The Python source is shallowly embedded: pandas DataFrames become ordered
column-name lists plus ordered rows of cell values; Python floats are
modelled as rationals; fallible rule execution is modelled with `Except`.
Each definition mirrors one function of the source, keeping its name where
Lean allows it.
-/

namespace GeoDataCheck

/-! String manipulation is implemented structurally over the character
list of a string so that every definition evaluates by kernel reduction
(the standard library's position-based string loops do not). -/

/-- Python str.strip() on a character list: drop whitespace from both
ends. -/
def trimChars (s : List Char) : List Char :=
  ((s.dropWhile Char.isWhitespace).reverse.dropWhile Char.isWhitespace).reverse

/-- Python str.strip() on a string. -/
def pyStrip (s : String) : String := String.mk (trimChars s.data)

/-- Whether pat is a prefix of s, by character. -/
def isPrefixChars : List Char → List Char → Bool
  | [], _ => true
  | _ :: _, [] => false
  | a :: as, b :: bs => a == b && isPrefixChars as bs

/-- Whether pat occurs as a contiguous substring of s, by character. -/
def containsChars (pat : List Char) : List Char → Bool
  | [] => pat.isEmpty
  | c :: rest => isPrefixChars pat (c :: rest) || containsChars pat rest

/-- Python substring containment test `pat in s`. -/
def strContains (s pat : String) : Bool :=
  containsChars pat.data s.data

/-- Split a character list at every occurrence of the separator
character, as Python str.split(sep) with a one-character separator. -/
def splitOnCharAux (sep : Char) : List Char → List Char → List (List Char)
  | [], acc => [acc.reverse]
  | c :: rest, acc =>
      if c == sep then acc.reverse :: splitOnCharAux sep rest []
      else splitOnCharAux sep rest (c :: acc)

/-- Python s.split(sep) for a one-character separator. -/
def pySplitOnChar (sep : Char) (s : String) : List String :=
  (splitOnCharAux sep s.data []).map String.mk

/-- Python sep.join(xs). -/
def strIntercalate (sep : String) (xs : List String) : String :=
  String.mk (List.intercalate sep.data (xs.map String.data))

/-- Python str.lower() (ASCII). -/
def pyLower (s : String) : String := String.mk (s.data.map Char.toLower)

/-- Python str.upper() (ASCII). -/
def pyUpper (s : String) : String := String.mk (s.data.map Char.toUpper)

/-- A Python float as the rules observe it: an exact decimal number
num / den with den a positive power of ten as produced by parsing. The
fraction is kept unnormalized; all comparisons cross-multiply. The
binary rounding of IEEE doubles is not modelled — the decimal literals
appearing in datasets and in the source's bounds are treated exactly. -/
structure PyFloat where
  num : Int
  den : Nat := 1
deriving DecidableEq, BEq

/-- Order on PyFloat by cross multiplication (denominators positive). -/
def PyFloat.lt (a b : PyFloat) : Bool :=
  a.num * (b.den : Int) < b.num * (a.den : Int)

/-- Non-strict order on PyFloat by cross multiplication. -/
def PyFloat.le (a b : PyFloat) : Bool :=
  a.num * (b.den : Int) ≤ b.num * (a.den : Int)

/-- Python int(float): truncation toward zero. -/
def PyFloat.trunc (a : PyFloat) : Int :=
  a.num.tdiv (a.den : Int)

/-- Decimal digit count of a positive denominator power of ten. -/
def denDigits : Nat → Nat
  | 0 => 0
  | 1 => 0
  | n + 2 => (toString (n + 2)).length - 1

/-- Python str() of a float: integral values render with a trailing
".0"; fractional values render their decimal digits with trailing
zeros stripped (exact for the power-of-ten denominators produced by
parsing). -/
def floatStr (a : PyFloat) : String :=
  if a.den ≤ 1 then toString a.num ++ ".0"
  else
    let sign := if a.num < 0 then "-" else ""
    let na := a.num.natAbs
    let ip := na / a.den
    let fr := na % a.den
    if fr == 0 then sign ++ toString ip ++ ".0"
    else
      let raw := toString fr
      let padded := String.mk (List.replicate (denDigits a.den - raw.length) '0') ++ raw
      let stripped := String.mk (padded.data.reverse.dropWhile (fun c => c == '0')).reverse
      sign ++ toString ip ++ "." ++ stripped

/-- A scalar cell value of a dataset: a string, an integer, a float or a
missing value (pandas NaN). -/
inductive Value where
  | str (s : String)
  | int (n : Int)
  | float (f : PyFloat)
  | na
deriving DecidableEq, BEq

/-- Python str() applied to a cell value. str(NaN) is "nan". -/
def Value.pyStr : Value → String
  | .str s => s
  | .int n => toString n
  | .float f => floatStr f
  | .na => "nan"

/-- pandas pd.isna on a cell. -/
def Value.isna : Value → Bool
  | .na => true
  | _ => false

/-- Numeric value of a digit character list (all characters assumed
digits). -/
def digitsVal (s : List Char) : Nat :=
  s.foldl (fun a c => a * 10 + (c.toNat - 48)) 0

/-- Python float(string): optional surrounding whitespace, optional sign,
decimal digits with an optional decimal point. Exponent and inf/nan forms
are not modelled (never exercised here); failure is None (ValueError). -/
def parseFloat? (s : String) : Option PyFloat :=
  let t := trimChars s.data
  let (sgn, body) :=
    if isPrefixChars ['-'] t then ((-1 : Int), t.drop 1)
    else if isPrefixChars ['+'] t then ((1 : Int), t.drop 1) else ((1 : Int), t)
  match splitOnCharAux '.' body [] with
  | [ip] =>
      if !ip.isEmpty && ip.all Char.isDigit then
        some { num := sgn * (digitsVal ip : Int) } else none
  | [ip, fp] =>
      if ip.all Char.isDigit && fp.all Char.isDigit && !(ip.isEmpty && fp.isEmpty) then
        some { num := sgn * ((digitsVal ip : Int) * (10 ^ fp.length : Nat) + (digitsVal fp : Int)),
               den := 10 ^ fp.length }
      else none
  | _ => none

/-- Python int(string): optional surrounding whitespace, optional sign,
decimal digits only. -/
def parseInt? (s : String) : Option Int :=
  let t := trimChars s.data
  let (sgn, body) :=
    if isPrefixChars ['-'] t then ((-1 : Int), t.drop 1)
    else if isPrefixChars ['+'] t then ((1 : Int), t.drop 1) else ((1 : Int), t)
  if !body.isEmpty && body.all Char.isDigit then some (sgn * (digitsVal body : Int)) else none

/-- Python float() applied to a cell value (cells are guarded by pd.isna
before float() is attempted in every rule, so the NaN case is unreachable
and modelled as failure). -/
def Value.pyFloat? : Value → Option PyFloat
  | .str s => parseFloat? s
  | .int n => some { num := n }
  | .float f => some f
  | .na => none

/-- Python str.isdigit (ASCII digits; empty string is not a digit string). -/
def pyIsDigit (s : String) : Bool :=
  !s.data.isEmpty && s.data.all Char.isDigit

/-- Severity levels for validation issues (base.py Severity). -/
inductive Severity where
  | ERROR
  | WARNING
  | INFO
deriving DecidableEq, BEq

/-- Categories for grouping validation rules (base.py Category). -/
inductive Category where
  | ADDRESS
  | COORDINATES
  | EGID
  | GENERAL
  | CUSTOM
deriving DecidableEq, BEq

/-- A single validation error/warning (base.py ValidationError). -/
structure ValidationError where
  row_index : Nat
  column : String
  rule_id : String
  rule_name : String
  severity : Severity
  message : String
  value : Option Value := none
  suggestion : Option String := none
deriving DecidableEq, BEq

/-- Metadata for a validation rule (base.py RuleMetadata). -/
structure RuleMetadata where
  id : String
  name : String
  name_de : String
  description : String
  description_de : String
  category : Category
  severity : Severity
  required_columns : List String := []
  example_valid : Option String := none
  example_invalid : Option String := none
deriving DecidableEq, BEq

/-- An already-parsed tabular dataset: ordered column names and ordered
rows, each row the list of cell values aligned with the columns. -/
structure DataFrame where
  cols : List String
  rows : List (List Value)
deriving DecidableEq, BEq

/-- row[col] access for one row of a DataFrame. -/
def DataFrame.cell (df : DataFrame) (row : List Value) (col : String) : Value :=
  match df.cols.findIdx? (fun c => c == col) with
  | some i => row.getD i Value.na
  | none => Value.na

/-- The free-form options bag of a configuration. An absent key is `none`;
a present (possibly empty) value is `some`, which matters because
dict.get aliasing distinguishes the two. -/
structure Options where
  coordinate_system : Option String := none
  duplicate_key_columns : Option (List String) := none
  numeric_columns : Option (List String) := none
deriving DecidableEq, BEq

/-- Caller-supplied configuration: logical-to-actual column mapping and
the options bag (config.get('columns', {}) / config.get('options', {})). -/
structure Config where
  columns : List (String × String) := []
  options : Options := {}
deriving DecidableEq, BEq

/-- columns.get(logical, logical): resolve a logical column name through
the config mapping, falling back to the logical name itself. -/
def lookupCol (columns : List (String × String)) (logical : String) : String :=
  (columns.lookup logical).getD logical

/-- BaseRule.is_applicable default policy (base.py lines 141-152): every
required logical column, resolved through the config mapping, must be a
member of the dataset's column list. The membership test is
case-sensitive (`actual_col not in df.columns`). -/
def is_applicable (df : DataFrame) (config : Config) (required_columns : List String) : Bool :=
  required_columns.all (fun required => df.cols.contains (lookupCol config.columns required))

/-- BaseRule.get_column (base.py lines 154-174): resolve a logical name
through the config mapping, return it if it is a column, else the first
column matching case-insensitively, else none. -/
def get_column (df : DataFrame) (config : Config) (logical_name : String) : Option String :=
  let actual_col := lookupCol config.columns logical_name
  if df.cols.contains actual_col then some actual_col
  else df.cols.find? (fun col => pyLower col == pyLower actual_col)

/-- Valid Swiss canton abbreviations (address.py SWISS_CANTONS), written
in the sorted order used by the suggestion text. -/
def SWISS_CANTONS : List String :=
  ["AG", "AI", "AR", "BE", "BL", "BS", "FR", "GE", "GL", "GR",
   "JU", "LU", "NE", "NW", "OW", "SG", "SH", "SO", "SZ", "TG",
   "TI", "UR", "VD", "VS", "ZG", "ZH"]

/-- Missing-or-blank test used throughout the rules:
pd.isna(value) or str(value).strip() == ''. -/
def isBlank (v : Value) : Bool :=
  v.isna || pyStrip v.pyStr == ""

/-- RequiredFieldsRule.metadata (address.py). -/
def RequiredFieldsRule_metadata : RuleMetadata :=
  { id := "R-ADDR-01", name := "Required Fields", name_de := "Pflichtfelder",
    description := "Checks that essential address fields (street, PLZ, city) are not empty",
    description_de := "Prüft, ob wesentliche Adressfelder (Strasse, PLZ, Ort) ausgefüllt sind",
    category := .ADDRESS, severity := .ERROR, required_columns := [],
    example_valid := some "Bundesplatz 1, 3003, Bern",
    example_invalid := some "Bundesplatz 1, , (PLZ und Ort fehlen)" }

/-- RequiredFieldsRule.validate (address.py lines 38-67). -/
def RequiredFieldsRule_validate (df : DataFrame) (config : Config) : List ValidationError :=
  [("plz", "PLZ"), ("ort", "Ort"), ("strasse", "Strasse")].flatMap (fun field =>
    match get_column df config field.1 with
    | none => []
    | some col =>
        df.rows.enum.filterMap (fun p =>
          let value := df.cell p.2 col
          if isBlank value then
            some { row_index := p.1, column := col,
                   rule_id := RequiredFieldsRule_metadata.id,
                   rule_name := RequiredFieldsRule_metadata.name_de,
                   severity := RequiredFieldsRule_metadata.severity,
                   message := field.2 ++ " fehlt oder ist leer",
                   value := some value }
          else none))

/-- PLZFormatRule.metadata (address.py). -/
def PLZFormatRule_metadata : RuleMetadata :=
  { id := "R-ADDR-02", name := "PLZ Format", name_de := "PLZ-Format",
    description := "Swiss postal codes must be 4 digits between 1000 and 9999",
    description_de := "Schweizer Postleitzahlen müssen 4-stellig sein (1000-9999)",
    category := .ADDRESS, severity := .ERROR, required_columns := ["plz"],
    example_valid := some "8001", example_invalid := some "123, 00100, 8001a" }

/-- The float-suffix normalization of PLZFormatRule.validate: a value
containing a decimal point is reparsed as str(int(float(s))), kept
unchanged if float() fails. -/
def plzNormalize (plz_str : String) : String :=
  if plz_str.data.contains '.' then
    match parseFloat? plz_str with
    | some q => toString q.trunc
    | none => plz_str
  else plz_str

/-- PLZFormatRule.validate (address.py lines 88-142): skip blank values;
normalize a float suffix; then flag not-all-digit, else length differing
from 4, else numeric value outside 1000-9999. -/
def PLZFormatRule_validate (df : DataFrame) (config : Config) : List ValidationError :=
  match get_column df config "plz" with
  | none => []
  | some plz_col =>
      df.rows.enum.filterMap (fun p =>
        let value := df.cell p.2 plz_col
        if isBlank value then none
        else
          let plz_str := plzNormalize (pyStrip value.pyStr)
          let mk : String → Option ValidationError := fun msg =>
            some { row_index := p.1, column := plz_col,
                   rule_id := PLZFormatRule_metadata.id,
                   rule_name := PLZFormatRule_metadata.name_de,
                   severity := PLZFormatRule_metadata.severity,
                   message := msg, value := some value }
          if !pyIsDigit plz_str then
            mk ("PLZ muss numerisch sein: \x27" ++ value.pyStr ++ "\x27")
          else if plz_str.length ≠ 4 then
            mk ("PLZ muss 4-stellig sein: \x27" ++ value.pyStr ++ "\x27 (" ++
                toString plz_str.length ++ " Stellen)")
          else if !(1000 ≤ digitsVal plz_str.data && digitsVal plz_str.data ≤ 9999) then
            mk ("PLZ ausserhalb gültiger Bereich: \x27" ++ value.pyStr ++
                "\x27 (muss 1000-9999 sein)")
          else none)

/-- CantonValidationRule.metadata (address.py). -/
def CantonValidationRule_metadata : RuleMetadata :=
  { id := "R-ADDR-04", name := "Canton Validation", name_de := "Kanton-Validierung",
    description := "Canton abbreviation must be a valid Swiss canton (AG, BE, ZH, etc.)",
    description_de := "Kantonsabkürzung muss ein gültiger Schweizer Kanton sein (AG, BE, ZH, etc.)",
    category := .ADDRESS, severity := .ERROR, required_columns := ["kanton"],
    example_valid := some "ZH, BE, VD", example_invalid := some "XX, Switzerland, Zürich" }

/-- CantonValidationRule.validate (address.py lines 163-190). -/
def CantonValidationRule_validate (df : DataFrame) (config : Config) : List ValidationError :=
  match get_column df config "kanton" with
  | none => []
  | some kanton_col =>
      df.rows.enum.filterMap (fun p =>
        let value := df.cell p.2 kanton_col
        if isBlank value then none
        else
          let kanton := pyUpper (pyStrip value.pyStr)
          if !SWISS_CANTONS.contains kanton then
            some { row_index := p.1, column := kanton_col,
                   rule_id := CantonValidationRule_metadata.id,
                   rule_name := CantonValidationRule_metadata.name_de,
                   severity := CantonValidationRule_metadata.severity,
                   message := "Ungültige Kantonsabkürzung: \x27" ++ value.pyStr ++ "\x27",
                   value := some value,
                   suggestion := some ("Gültige Kantone: " ++ strIntercalate ", " SWISS_CANTONS) }
          else none)

/-- StreetFormatRule.metadata (address.py). -/
def StreetFormatRule_metadata : RuleMetadata :=
  { id := "R-ADDR-05", name := "Street Format", name_de := "Strassenformat",
    description := "Checks street names for obvious formatting issues",
    description_de := "Prüft Strassennamen auf offensichtliche Formatierungsfehler",
    category := .ADDRESS, severity := .WARNING, required_columns := ["strasse"],
    example_valid := some "Bundesplatz 1, Bahnhofstrasse 23a",
    example_invalid := some "123456, ????" }

/-- The character class of the street-format regex: angle brackets,
braces, pipe, backslash, caret, tilde and square brackets. -/
def streetBadChars : List Char :=
  ['<', '>', '\x7b', '\x7d', '|', '\\', '^', '~', '[', ']']

/-- StreetFormatRule.validate (address.py lines 211-262): flag all-numeric
values, else trimmed length below 3, else unusual characters. -/
def StreetFormatRule_validate (df : DataFrame) (config : Config) : List ValidationError :=
  match get_column df config "strasse" with
  | none => []
  | some strasse_col =>
      df.rows.enum.filterMap (fun p =>
        let value := df.cell p.2 strasse_col
        if isBlank value then none
        else
          let strasse := pyStrip value.pyStr
          let mk : String → Option ValidationError := fun msg =>
            some { row_index := p.1, column := strasse_col,
                   rule_id := StreetFormatRule_metadata.id,
                   rule_name := StreetFormatRule_metadata.name_de,
                   severity := .WARNING, message := msg,
                   value := some value }
          if pyIsDigit strasse then
            mk ("Strasse ist nur numerisch: \x27" ++ value.pyStr ++ "\x27")
          else if strasse.length < 3 then
            mk ("Strassenname sehr kurz: \x27" ++ value.pyStr ++ "\x27")
          else if strasse.data.any (fun c => streetBadChars.contains c) then
            mk ("Strassenname enthält ungewöhnliche Zeichen: \x27" ++ value.pyStr ++ "\x27")
          else none)

/-- Switzerland bounds in LV95 (coordinates.py CH_BOUNDS_LV95). -/
def CH_BOUNDS_LV95_e_min : PyFloat := { num := 2485000 }
def CH_BOUNDS_LV95_e_max : PyFloat := { num := 2834000 }
def CH_BOUNDS_LV95_n_min : PyFloat := { num := 1075000 }
def CH_BOUNDS_LV95_n_max : PyFloat := { num := 1296000 }

/-- Switzerland bounds in WGS84 (coordinates.py CH_BOUNDS_WGS84). -/
def CH_BOUNDS_WGS84_lon_min : PyFloat := { num := 59, den := 10 }
def CH_BOUNDS_WGS84_lon_max : PyFloat := { num := 105, den := 10 }
def CH_BOUNDS_WGS84_lat_min : PyFloat := { num := 458, den := 10 }
def CH_BOUNDS_WGS84_lat_max : PyFloat := { num := 479, den := 10 }

/-- detect_coordinate_system (coordinates.py lines 26-38): LV95 when
2000000 < e < 3000000 and 1000000 < n < 2000000, WGS84 when 5 < e < 11
and 45 < n < 48, otherwise undetermined. -/
def detect_coordinate_system (e n : PyFloat) : Option String :=
  if PyFloat.lt { num := 2000000 } e && PyFloat.lt e { num := 3000000 } &&
     PyFloat.lt { num := 1000000 } n && PyFloat.lt n { num := 2000000 } then some "LV95"
  else if PyFloat.lt { num := 5 } e && PyFloat.lt e { num := 11 } &&
     PyFloat.lt { num := 45 } n && PyFloat.lt n { num := 48 } then some "WGS84"
  else none

/-- CoordinatePresenceRule.metadata (coordinates.py). -/
def CoordinatePresenceRule_metadata : RuleMetadata :=
  { id := "R-COORD-01", name := "Coordinate Presence", name_de := "Koordinaten vorhanden",
    description := "Checks that both E and N coordinates are provided",
    description_de := "Prüft, ob E- und N-Koordinaten vorhanden sind",
    category := .COORDINATES, severity := .WARNING,
    required_columns := ["easting", "northing"],
    example_valid := some "E: 2600000, N: 1200000",
    example_invalid := some "E: 2600000, N: (leer)" }

/-- CoordinatePresenceRule.validate (coordinates.py lines 59-95): flags a
row when exactly one of the two coordinates is missing. -/
def CoordinatePresenceRule_validate (df : DataFrame) (config : Config) : List ValidationError :=
  match get_column df config "easting", get_column df config "northing" with
  | some e_col, some n_col =>
      df.rows.enum.filterMap (fun p =>
        let e_missing := isBlank (df.cell p.2 e_col)
        let n_missing := isBlank (df.cell p.2 n_col)
        if e_missing && !n_missing then
          some { row_index := p.1, column := e_col,
                 rule_id := CoordinatePresenceRule_metadata.id,
                 rule_name := CoordinatePresenceRule_metadata.name_de,
                 severity := CoordinatePresenceRule_metadata.severity,
                 message := "E-Koordinate fehlt (N-Koordinate vorhanden)" }
        else if n_missing && !e_missing then
          some { row_index := p.1, column := n_col,
                 rule_id := CoordinatePresenceRule_metadata.id,
                 rule_name := CoordinatePresenceRule_metadata.name_de,
                 severity := CoordinatePresenceRule_metadata.severity,
                 message := "N-Koordinate fehlt (E-Koordinate vorhanden)" }
        else none)
  | _, _ => []

/-- SwissBoundsRule.metadata (coordinates.py). -/
def SwissBoundsRule_metadata : RuleMetadata :=
  { id := "R-COORD-02", name := "Swiss Bounds Check", name_de := "Schweizer Grenzen",
    description := "Coordinates must fall within Switzerland's boundaries",
    description_de := "Koordinaten müssen innerhalb der Schweizer Grenzen liegen",
    category := .COORDINATES, severity := .ERROR,
    required_columns := ["easting", "northing"],
    example_valid := some "E: 2600000, N: 1200000 (Bern, LV95)",
    example_invalid := some "E: 1000000, N: 500000 (ausserhalb CH)" }

/-- The per-row findings of SwissBoundsRule.validate once both cell values
are known, mirroring coordinates.py lines 130-210. -/
def swissBoundsRow (e_col n_col : String) (coord_system : String)
    (idx : Nat) (e_val n_val : Value) : List ValidationError :=
  let mk : String → String → Option Value → ValidationError := fun col msg v =>
    { row_index := idx, column := col,
      rule_id := SwissBoundsRule_metadata.id,
      rule_name := SwissBoundsRule_metadata.name_de,
      severity := SwissBoundsRule_metadata.severity,
      message := msg, value := v }
  if e_val.isna || n_val.isna then []
  else
    match e_val.pyFloat?, n_val.pyFloat? with
    | some e, some n =>
        let checkSystem : String → List ValidationError := fun system =>
          if system == "LV95" then
            (if !(PyFloat.le CH_BOUNDS_LV95_e_min e && PyFloat.le e CH_BOUNDS_LV95_e_max) then
              [mk e_col ("E-Koordinate ausserhalb Schweiz: " ++ floatStr e ++
                " (LV95: 2485000-2834000)") (some (Value.float e))] else []) ++
            (if !(PyFloat.le CH_BOUNDS_LV95_n_min n && PyFloat.le n CH_BOUNDS_LV95_n_max) then
              [mk n_col ("N-Koordinate ausserhalb Schweiz: " ++ floatStr n ++
                " (LV95: 1075000-1296000)") (some (Value.float n))] else [])
          else
            (if !(PyFloat.le CH_BOUNDS_WGS84_lon_min e && PyFloat.le e CH_BOUNDS_WGS84_lon_max) then
              [mk e_col ("Longitude ausserhalb Schweiz: " ++ floatStr e ++
                " (WGS84: 5.9-10.5)") (some (Value.float e))] else []) ++
            (if !(PyFloat.le CH_BOUNDS_WGS84_lat_min n && PyFloat.le n CH_BOUNDS_WGS84_lat_max) then
              [mk n_col ("Latitude ausserhalb Schweiz: " ++ floatStr n ++
                " (WGS84: 45.8-47.9)") (some (Value.float n))] else [])
        if coord_system == "auto" then
          match detect_coordinate_system e n with
          | none =>
              [mk (e_col ++ "/" ++ n_col)
                ("Koordinatensystem nicht erkennbar: E=" ++ floatStr e ++ ", N=" ++ floatStr n)
                (some (Value.str ("E=" ++ floatStr e ++ ", N=" ++ floatStr n)))]
          | some detected => checkSystem detected
        else checkSystem coord_system
    | _, _ =>
        [mk (e_col ++ "/" ++ n_col)
          ("Ungültige Koordinatenwerte: E=" ++ e_val.pyStr ++ ", N=" ++ n_val.pyStr)
          (some (Value.str ("E=" ++ e_val.pyStr ++ ", N=" ++ n_val.pyStr)))]

/-- SwissBoundsRule.validate (coordinates.py lines 116-212): for each row
with both values present, parse both as floats (one combined finding on
failure); determine the coordinate system, either forced through
options.coordinate_system or auto-detected (a finding when inconclusive,
bounds skipped); then flag each axis lying outside the fixed boxes. -/
def SwissBoundsRule_validate (df : DataFrame) (config : Config) : List ValidationError :=
  match get_column df config "easting", get_column df config "northing" with
  | some e_col, some n_col =>
      let coord_system := config.options.coordinate_system.getD "auto"
      df.rows.enum.flatMap (fun p =>
        swissBoundsRow e_col n_col coord_system p.1 (df.cell p.2 e_col) (df.cell p.2 n_col))
  | _, _ => []

/-- CoordinatePrecisionRule.metadata (coordinates.py). -/
def CoordinatePrecisionRule_metadata : RuleMetadata :=
  { id := "R-COORD-04", name := "Coordinate Precision", name_de := "Koordinaten-Präzision",
    description := "Checks that coordinates have appropriate precision for building location",
    description_de := "Prüft, ob Koordinaten ausreichende Präzision für Gebäudestandort haben",
    category := .COORDINATES, severity := .WARNING,
    required_columns := ["easting", "northing"],
    example_valid := some "E: 2600123.45, N: 1200456.78",
    example_invalid := some "E: 2600000, N: 1200000 (zu rund)" }

/-- Python float modulo test q % 1000 == 0: num / den is an integer
multiple of 1000 exactly when 1000 * den divides num. -/
def isMultipleOf1000 (q : PyFloat) : Bool :=
  q.num % (1000 * (q.den : Int)) == 0

/-- CoordinatePrecisionRule.validate (coordinates.py lines 233-274): for
auto-detected LV95 rows, flag coordinates that are both multiples of
1000. -/
def CoordinatePrecisionRule_validate (df : DataFrame) (config : Config) : List ValidationError :=
  match get_column df config "easting", get_column df config "northing" with
  | some e_col, some n_col =>
      df.rows.enum.filterMap (fun p =>
        let e_val := df.cell p.2 e_col
        let n_val := df.cell p.2 n_col
        if e_val.isna || n_val.isna then none
        else
          match e_val.pyFloat?, n_val.pyFloat? with
          | some e, some n =>
              match detect_coordinate_system e n with
              | some "LV95" =>
                  if isMultipleOf1000 e && isMultipleOf1000 n then
                    some { row_index := p.1, column := e_col ++ "/" ++ n_col,
                           rule_id := CoordinatePrecisionRule_metadata.id,
                           rule_name := CoordinatePrecisionRule_metadata.name_de,
                           severity := CoordinatePrecisionRule_metadata.severity,
                           message := "Koordinaten ungewöhnlich rund (auf 1000m): E=" ++
                             floatStr e ++ ", N=" ++ floatStr n,
                           value := some (Value.str ("E=" ++ floatStr e ++ ", N=" ++ floatStr n)),
                           suggestion := some "Koordinaten könnten ungenau oder gerundet sein" }
                  else none
              | _ => none
          | _, _ => none)
  | _, _ => []

/-- EGIDFormatRule.metadata (egid.py). -/
def EGIDFormatRule_metadata : RuleMetadata :=
  { id := "R-EGID-01", name := "EGID Format", name_de := "EGID-Format",
    description := "EGID must be a positive integer (federal building identifier)",
    description_de := "EGID muss eine positive Ganzzahl sein (Eidgenössischer Gebäudeidentifikator)",
    category := .EGID, severity := .ERROR, required_columns := ["egid"],
    example_valid := some "123456789", example_invalid := some "12-345, EGID123, -500" }

/-- The EGID parse of egid.py: int(float(s)) when the string contains a
decimal point, int(s) otherwise; None models the ValueError path. -/
def egidParse? (egid_str : String) : Option Int :=
  if egid_str.data.contains '.' then (parseFloat? egid_str).map PyFloat.trunc
  else parseInt? egid_str

/-- EGIDFormatRule.validate (egid.py lines 29-82): non-empty values are
parsed as integers; non-numeric gives an ERROR, a non-positive value an
ERROR, a value above 999999999 a WARNING. -/
def EGIDFormatRule_validate (df : DataFrame) (config : Config) : List ValidationError :=
  match get_column df config "egid" with
  | none => []
  | some egid_col =>
      df.rows.enum.filterMap (fun p =>
        let value := df.cell p.2 egid_col
        if isBlank value then none
        else
          match egidParse? (pyStrip value.pyStr) with
          | some egid =>
              if egid ≤ 0 then
                some { row_index := p.1, column := egid_col,
                       rule_id := EGIDFormatRule_metadata.id,
                       rule_name := EGIDFormatRule_metadata.name_de,
                       severity := EGIDFormatRule_metadata.severity,
                       message := "EGID muss positiv sein: \x27" ++ value.pyStr ++ "\x27",
                       value := some value }
              else if egid > 999999999 then
                some { row_index := p.1, column := egid_col,
                       rule_id := EGIDFormatRule_metadata.id,
                       rule_name := EGIDFormatRule_metadata.name_de,
                       severity := .WARNING,
                       message := "EGID ungewöhnlich gross: \x27" ++ value.pyStr ++ "\x27",
                       value := some value }
              else none
          | none =>
              some { row_index := p.1, column := egid_col,
                     rule_id := EGIDFormatRule_metadata.id,
                     rule_name := EGIDFormatRule_metadata.name_de,
                     severity := EGIDFormatRule_metadata.severity,
                     message := "Ungültiges EGID-Format: \x27" ++ value.pyStr ++
                       "\x27 (muss eine Zahl sein)",
                     value := some value })

/-- EGIDUniquenessRule.metadata (egid.py). -/
def EGIDUniquenessRule_metadata : RuleMetadata :=
  { id := "R-EGID-02", name := "EGID Uniqueness", name_de := "EGID-Eindeutigkeit",
    description := "Each EGID should appear only once (unless multiple units per building)",
    description_de := "Jedes EGID sollte nur einmal vorkommen (ausser bei mehreren Einheiten pro Gebäude)",
    category := .EGID, severity := .WARNING, required_columns := ["egid"],
    example_valid := some "123, 456, 789 (alle unterschiedlich)",
    example_invalid := some "123, 123, 456 (123 doppelt)" }

/-- The normalized grouping key of EGIDUniquenessRule: str(int(float(s)))
for float-suffixed strings, the string itself otherwise; None models the
skipped ValueError path. -/
def egidKey? (egid_str : String) : Option String :=
  if egid_str.data.contains '.' then (parseFloat? egid_str).map (fun q => toString q.trunc)
  else some egid_str

/-- Insertion into the ordered occurrence table egid_rows of
EGIDUniquenessRule (a Python dict of first-seen-ordered keys, each with
its row list in order). -/
def addOccurrence (acc : List (String × List Nat)) (key : String) (idx : Nat) :
    List (String × List Nat) :=
  if acc.any (fun g => g.1 == key) then
    acc.map (fun g => if g.1 == key then (g.1, g.2 ++ [idx]) else g)
  else acc ++ [(key, [idx])]

/-- The occurrence table built by the first loop of
EGIDUniquenessRule.validate (egid.py lines 110-131). -/
def egidOccurrences (df : DataFrame) (egid_col : String) : List (String × List Nat) :=
  df.rows.enum.foldl (fun acc p =>
    let value := df.cell p.2 egid_col
    if isBlank value then acc
    else
      match egidKey? (pyStrip value.pyStr) with
      | some key => addOccurrence acc key p.1
      | none => acc) []

/-- EGIDUniquenessRule.validate (egid.py lines 103-149): group normalized
EGID values by value and, for each group with more than one occurrence,
emit one finding per row after the first, listing all occurrence display
rows in the message. -/
def EGIDUniquenessRule_validate (df : DataFrame) (config : Config) : List ValidationError :=
  match get_column df config "egid" with
  | none => []
  | some egid_col =>
      (egidOccurrences df egid_col).flatMap (fun g =>
        if 1 < g.2.length then
          g.2.drop 1 |>.map (fun idx =>
            { row_index := idx, column := egid_col,
              rule_id := EGIDUniquenessRule_metadata.id,
              rule_name := EGIDUniquenessRule_metadata.name_de,
              severity := EGIDUniquenessRule_metadata.severity,
              message := "EGID \x27" ++ g.1 ++ "\x27 kommt mehrfach vor (Zeilen: " ++
                strIntercalate ", " (g.2.map (fun r => toString (r + 2))) ++ ")",
              value := some (Value.str g.1),
              suggestion := some "Prüfen Sie, ob es sich um Duplikate oder verschiedene Einheiten handelt" })
        else [])

/-- EGIDPresenceRule.metadata (egid.py). -/
def EGIDPresenceRule_metadata : RuleMetadata :=
  { id := "R-EGID-03", name := "EGID Presence", name_de := "EGID vorhanden",
    description := "Every building record should have an EGID",
    description_de := "Jeder Gebäudedatensatz sollte eine EGID haben",
    category := .EGID, severity := .ERROR, required_columns := ["egid"],
    example_valid := some "123456789", example_invalid := some "(leer)" }

/-- EGIDPresenceRule.validate (egid.py lines 170-191): flags every row
whose EGID cell is missing or blank. -/
def EGIDPresenceRule_validate (df : DataFrame) (config : Config) : List ValidationError :=
  match get_column df config "egid" with
  | none => []
  | some egid_col =>
      df.rows.enum.filterMap (fun p =>
        if isBlank (df.cell p.2 egid_col) then
          some { row_index := p.1, column := egid_col,
                 rule_id := EGIDPresenceRule_metadata.id,
                 rule_name := EGIDPresenceRule_metadata.name_de,
                 severity := EGIDPresenceRule_metadata.severity,
                 message := "EGID fehlt" }
        else none)

/-- DuplicateRowsRule.metadata (general.py). -/
def DuplicateRowsRule_metadata : RuleMetadata :=
  { id := "R-GEN-01", name := "Duplicate Rows", name_de := "Doppelte Zeilen",
    description := "Detects rows that appear to be duplicates based on key fields",
    description_de := "Erkennt Zeilen, die auf Basis von Schlüsselfeldern Duplikate zu sein scheinen",
    category := .GENERAL, severity := .WARNING, required_columns := [],
    example_valid := some "Jede Zeile ist einzigartig",
    example_invalid := some "Zeile 5 und Zeile 10 sind identisch" }

/-- The row fingerprint of DuplicateRowsRule: the pipe-joined stringified
cell values over the selected columns. The source hashes this string with
md5 and compares hashes; the hash is modelled as the string itself, which
identifies rows exactly when their joined strings coincide (the source
treats any hash collision as a duplicate, a theoretical divergence the
specification itself documents as a known limitation). -/
def rowFingerprint (df : DataFrame) (row : List Value) (cols : List String) : String :=
  strIntercalate "|" (cols.map (fun c => (df.cell row c).pyStr))

/-- The scan loop of DuplicateRowsRule.validate: remember the first row
index of each fingerprint, flag every later row carrying a seen
fingerprint. -/
def dupScan (df : DataFrame) (cols : List String) : List ValidationError :=
  (df.rows.enum.foldl (fun acc p =>
    let fp := rowFingerprint df p.2 cols
    match acc.1.lookup fp with
    | some first_idx =>
        (acc.1, acc.2 ++
          [{ row_index := p.1, column := "(alle)",
             rule_id := DuplicateRowsRule_metadata.id,
             rule_name := DuplicateRowsRule_metadata.name_de,
             severity := DuplicateRowsRule_metadata.severity,
             message := "Mögliches Duplikat von Zeile " ++ toString (first_idx + 2),
             suggestion := some "Prüfen Sie, ob diese Zeile versehentlich doppelt erfasst wurde" }])
    | none => (acc.1 ++ [(fp, p.1)], acc.2))
    (([] : List (String × Nat)), ([] : List ValidationError))).2

/-- DuplicateRowsRule.validate (general.py lines 30-68): fingerprints are
taken over options.duplicate_key_columns filtered to existing columns
(all columns when the option is absent or empty; no findings when the
filter leaves nothing). -/
def DuplicateRowsRule_validate (df : DataFrame) (config : Config) : List ValidationError :=
  match config.options.duplicate_key_columns with
  | some key_cols =>
      if key_cols.isEmpty then dupScan df df.cols
      else
        let existing := key_cols.filter (fun c => df.cols.contains c)
        if existing.isEmpty then [] else dupScan df existing
  | none => dupScan df df.cols

/-- EmptyRowsRule.metadata (general.py). -/
def EmptyRowsRule_metadata : RuleMetadata :=
  { id := "R-GEN-02", name := "Empty Rows", name_de := "Leere Zeilen",
    description := "Detects rows where all cells are empty",
    description_de := "Erkennt Zeilen, in denen alle Zellen leer sind",
    category := .GENERAL, severity := .INFO, required_columns := [],
    example_valid := some "Zeile hat mindestens einen Wert",
    example_invalid := some "Komplett leere Zeile" }

/-- EmptyRowsRule.validate (general.py lines 89-110): flags a row when
every cell is missing or blank after stringification. -/
def EmptyRowsRule_validate (df : DataFrame) (_config : Config) : List ValidationError :=
  df.rows.enum.filterMap (fun p =>
    if (df.cols.map (fun c => df.cell p.2 c)).all isBlank then
      some { row_index := p.1, column := "(alle)",
             rule_id := EmptyRowsRule_metadata.id,
             rule_name := EmptyRowsRule_metadata.name_de,
             severity := EmptyRowsRule_metadata.severity,
             message := "Zeile ist komplett leer" }
    else none)

/-- DataTypeConsistencyRule.metadata (general.py). -/
def DataTypeConsistencyRule_metadata : RuleMetadata :=
  { id := "R-GEN-03", name := "Data Type Consistency", name_de := "Datentyp-Konsistenz",
    description := "Checks that numeric columns contain only numeric values",
    description_de := "Prüft, ob numerische Spalten nur numerische Werte enthalten",
    category := .GENERAL, severity := .WARNING, required_columns := [],
    example_valid := some "PLZ-Spalte enthält nur Zahlen",
    example_invalid := some "PLZ-Spalte enthält \x27k.A.\x27, \x27n/a\x27" }

/-- The numeric-column working list of DataTypeConsistencyRule.validate
(general.py lines 135-143): options.numeric_columns (empty when absent),
extended in place with every mapped plz/egid/easting/northing column that
exists in the dataset and is not yet listed. -/
def dtcNumericCols (df : DataFrame) (config : Config) : List String :=
  ["plz", "egid", "easting", "northing"].foldl (fun acc logical_name =>
    match config.columns.lookup logical_name with
    | some col => if df.cols.contains col && !acc.contains col then acc ++ [col] else acc
    | none => acc)
    (config.options.numeric_columns.getD [])

/-- The findings of DataTypeConsistencyRule.validate (general.py lines
145-169): every non-blank cell of a numeric column that float() rejects. -/
def DataTypeConsistencyRule_validate (df : DataFrame) (config : Config) : List ValidationError :=
  (dtcNumericCols df config).flatMap (fun col =>
    if !df.cols.contains col then []
    else
      df.rows.enum.filterMap (fun p =>
        let value := df.cell p.2 col
        if isBlank value then none
        else
          match value.pyFloat? with
          | some _ => none
          | none =>
              some { row_index := p.1, column := col,
                     rule_id := DataTypeConsistencyRule_metadata.id,
                     rule_name := DataTypeConsistencyRule_metadata.name_de,
                     severity := DataTypeConsistencyRule_metadata.severity,
                     message := "Nicht-numerischer Wert in numerischer Spalte: \x27" ++
                       value.pyStr ++ "\x27",
                     value := some value }))

/-- The caller-visible effect of one DataTypeConsistencyRule.validate
call. In the source, `numeric_cols = config.get('options', {})
.get('numeric_columns', [])` aliases the caller's list whenever the
options bag holds a numeric_columns entry, so the subsequent in-place
appends (general.py lines 139-143) are visible to the caller; with the
entry absent the appends land on a fresh list and the config is
untouched. The returned Config is the post-call state of the caller's
configuration object. -/
def DataTypeConsistencyRule_run (df : DataFrame) (config : Config) :
    List ValidationError × Config :=
  (DataTypeConsistencyRule_validate df config,
   match config.options.numeric_columns with
   | some _ =>
       { config with options := { config.options with numeric_columns := some (dtcNumericCols df config) } }
   | none => config)

/-- EncodingIssuesRule.metadata (general.py). -/
def EncodingIssuesRule_metadata : RuleMetadata :=
  { id := "R-GEN-04", name := "Encoding Issues", name_de := "Zeichenkodierung",
    description := "Detects potential character encoding problems (replacement characters, etc.)",
    description_de := "Erkennt mögliche Zeichenkodierungsprobleme (Ersetzungszeichen, etc.)",
    category := .GENERAL, severity := .WARNING, required_columns := [],
    example_valid := some "Zürich, Genève, Müller",
    example_invalid := some "Z�rich, Gen�ve, M�ller" }

/-- ENCODING_ISSUES (general.py lines 191-200): the replacement
character, six UTF-8-as-Latin-1 mis-decodings (the last one, for the
character a-grave, is the letter A-tilde followed by a plain space, as
in the source text) and the null character. -/
def ENCODING_ISSUES : List String :=
  ["�", "Ã¼", "Ã¤", "Ã¶",
   "Ã©", "Ã¨", "Ã ", "\x00"]

/-- EncodingIssuesRule.validate (general.py lines 202-227): scans every
cell column by column; the first matching indicator substring per cell
produces one finding with the cell truncated to 50 characters in the
message and to 100 characters in the stored value. -/
def EncodingIssuesRule_validate (df : DataFrame) (_config : Config) : List ValidationError :=
  df.cols.flatMap (fun col =>
    df.rows.enum.filterMap (fun p =>
      let value := df.cell p.2 col
      if value.isna then none
      else
        let value_str := value.pyStr
        match ENCODING_ISSUES.find? (fun issue => strContains value_str issue) with
        | some _ =>
            some { row_index := p.1, column := col,
                   rule_id := EncodingIssuesRule_metadata.id,
                   rule_name := EncodingIssuesRule_metadata.name_de,
                   severity := EncodingIssuesRule_metadata.severity,
                   message :=
                     if 50 < value_str.length then
                       "Mögliches Kodierungsproblem: \x27" ++ String.mk (value_str.data.take 50) ++ "...\x27 "
                     else "Mögliches Kodierungsproblem: \x27" ++ value_str ++ "\x27",
                   value := some (Value.str (String.mk (value_str.data.take 100))),
                   suggestion := some "Prüfen Sie die Zeichenkodierung der Quelldatei (UTF-8 empfohlen)" }
        | none => none))

/-- A rule as the engine sees it (base.py BaseRule): metadata, an
applicability test (every default rule uses the base-class policy, but
the field admits overrides) and a validate function whose environmental
failures are an `Except.error` carrying the exception text. -/
structure RuleSpec where
  metadata : RuleMetadata
  applicable : DataFrame → Config → Bool
  run : DataFrame → Config → Except String (List ValidationError)

/-- Wrap a pure validate function and a metadata record as a rule using
the default applicability policy, as every rule class of the default
catalogue does. -/
def mkRule (meta : RuleMetadata) (v : DataFrame → Config → List ValidationError) : RuleSpec :=
  { metadata := meta,
    applicable := fun df config => is_applicable df config meta.required_columns,
    run := fun df config => Except.ok (v df config) }

/-- ALL_RULES (rules/__init__.py lines 34-53), in registration order. -/
def ALL_RULES : List RuleSpec :=
  [mkRule RequiredFieldsRule_metadata RequiredFieldsRule_validate,
   mkRule PLZFormatRule_metadata PLZFormatRule_validate,
   mkRule CantonValidationRule_metadata CantonValidationRule_validate,
   mkRule StreetFormatRule_metadata StreetFormatRule_validate,
   mkRule CoordinatePresenceRule_metadata CoordinatePresenceRule_validate,
   mkRule SwissBoundsRule_metadata SwissBoundsRule_validate,
   mkRule CoordinatePrecisionRule_metadata CoordinatePrecisionRule_validate,
   mkRule EGIDFormatRule_metadata EGIDFormatRule_validate,
   mkRule EGIDUniquenessRule_metadata EGIDUniquenessRule_validate,
   mkRule EGIDPresenceRule_metadata EGIDPresenceRule_validate,
   mkRule DuplicateRowsRule_metadata DuplicateRowsRule_validate,
   mkRule EmptyRowsRule_metadata EmptyRowsRule_validate,
   mkRule DataTypeConsistencyRule_metadata DataTypeConsistencyRule_validate,
   mkRule EncodingIssuesRule_metadata EncodingIssuesRule_validate]

/-- RuleRegistry.register (engine.py lines 19-21): a dict write keyed by
rule id — replace the entry carrying the same id, else append. The
registry is modelled as the dict's insertion-ordered value list. -/
def RuleRegistry.register (rules : List RuleSpec) (r : RuleSpec) : List RuleSpec :=
  if rules.any (fun q => q.metadata.id == r.metadata.id) then
    rules.map (fun q => if q.metadata.id == r.metadata.id then r else q)
  else rules ++ [r]

/-- RuleRegistry.get_rule (engine.py lines 23-25). -/
def RuleRegistry.get_rule (rules : List RuleSpec) (rule_id : String) : Option RuleSpec :=
  rules.find? (fun r => r.metadata.id == rule_id)

/-- create_default_registry (validation/__init__.py lines 47-59):
register one instance of every class in ALL_RULES. -/
def create_default_registry : List RuleSpec :=
  ALL_RULES.foldl RuleRegistry.register []

/-- Complete result of a validation run (engine.py ValidationResult). -/
structure ValidationResult where
  total_rows : Nat
  errors : List ValidationError := []
  rules_executed : List String := []
  rules_skipped : List String := []
deriving DecidableEq, BEq

/-- ValidationResult.error_count. -/
def ValidationResult.error_count (r : ValidationResult) : Nat :=
  (r.errors.filter (fun e => e.severity == Severity.ERROR)).length

/-- ValidationResult.warning_count. -/
def ValidationResult.warning_count (r : ValidationResult) : Nat :=
  (r.errors.filter (fun e => e.severity == Severity.WARNING)).length

/-- ValidationResult.info_count. -/
def ValidationResult.info_count (r : ValidationResult) : Nat :=
  (r.errors.filter (fun e => e.severity == Severity.INFO)).length

/-- ValidationResult.passed_rows (engine.py lines 68-71): total rows
minus the size of the set of row indices carrying an ERROR finding (a
Python set; the deduplicated index list has the set's cardinality). -/
def ValidationResult.passed_rows (r : ValidationResult) : Int :=
  (r.total_rows : Int) -
    (((r.errors.filter (fun e => e.severity == Severity.ERROR)).map
      (fun e => e.row_index)).dedup.length : Int)

/-- Rounding to one decimal, as Python round(x, 1). Python rounds exact
midpoints half-to-even while `round` rounds them half-up; both sides of
every statement below use this same function, so the difference does not
affect any theorem. -/
def round1 (q : ℚ) : ℚ := ((round (q * 10) : ℤ) : ℚ) / 10

/-- The pass_rate field of ValidationResult.to_dict (engine.py line 133):
passed_rows / total_rows * 100 rounded to one decimal, 100 when the
dataset is empty. -/
def ValidationResult.pass_rate (r : ValidationResult) : ℚ :=
  if 0 < r.total_rows then round1 ((r.passed_rows : ℚ) / (r.total_rows : ℚ) * 100) else 100

/-- The category-name table of get_errors_by_category, as Python
cat_map.get(parts[1], 'general'). -/
def catName (seg : String) : String :=
  if seg == "ADDR" then "address"
  else if seg == "COORD" then "coordinates"
  else if seg == "EGID" then "egid"
  else if seg == "GEN" then "general"
  else if seg == "CUSTOM" then "custom"
  else "general"

/-- The category a finding is tallied under by get_errors_by_category
(engine.py lines 73-84): the second dash-separated segment of the rule
id through the table, or none (no tally at all) when the id has fewer
than two segments. -/
def categoryOfRuleId (rule_id : String) : Option String :=
  if 2 ≤ (pySplitOnChar '-' rule_id).length then
    some (catName ((pySplitOnChar '-' rule_id).getD 1 "")) else none

/-- ValidationResult.get_errors_by_category as a tally function: the
count recorded for a category name (0 for a category no finding falls
under, where the Python dict simply has no key). -/
def ValidationResult.get_errors_by_category (r : ValidationResult) (cat : String) : Nat :=
  (r.errors.filter (fun e => categoryOfRuleId e.rule_id == some cat)).length

/-- The orchestration loop of ValidationEngine.validate (engine.py lines
184-196), processed rule by rule: an inapplicable rule is recorded as
skipped; an applicable rule contributes its findings and its id to the
executed list, unless its execution fails, in which case the exception
is swallowed and the id is recorded as skipped. Returns (errors,
rules_executed, rules_skipped). -/
def runRules (df : DataFrame) (config : Config) :
    List RuleSpec → List ValidationError × List String × List String
  | [] => ([], [], [])
  | r :: rest =>
      let tail := runRules df config rest
      if r.applicable df config then
        match r.run df config with
        | Except.ok errs => (errs ++ tail.1, r.metadata.id :: tail.2.1, tail.2.2)
        | Except.error _ => (tail.1, tail.2.1, r.metadata.id :: tail.2.2)
      else (tail.1, tail.2.1, r.metadata.id :: tail.2.2)

/-- Python truthiness of the optional rule_ids argument: None and the
empty list are both falsy (`if rule_ids:` in engine.py line 178). -/
def rule_idsTruthy : Option (List String) → Bool
  | none => false
  | some ids => !ids.isEmpty

/-- The rule-set resolution of ValidationEngine.validate (engine.py lines
177-182): with a truthy rule_ids list, look each id up in the registry
and silently drop unknown ids; otherwise take every registered rule. -/
def selectRules (registry : List RuleSpec) (rule_ids : Option (List String)) : List RuleSpec :=
  if rule_idsTruthy rule_ids then
    (rule_ids.getD []).filterMap (fun rid => RuleRegistry.get_rule registry rid)
  else registry

/-- ValidationEngine.validate (engine.py lines 158-198). -/
def ValidationEngine.validate (registry : List RuleSpec) (df : DataFrame) (config : Config)
    (rule_ids : Option (List String)) : ValidationResult :=
  let outcome := runRules df config (selectRules registry rule_ids)
  { total_rows := df.rows.length, errors := outcome.1,
    rules_executed := outcome.2.1, rules_skipped := outcome.2.2 }

/-- The findings one rule contributes to an engine run: its validate
output when it is applicable and succeeds, nothing otherwise. -/
def ruleFindings (df : DataFrame) (config : Config) (r : RuleSpec) : List ValidationError :=
  if r.applicable df config then
    match r.run df config with
    | Except.ok errs => errs
    | Except.error _ => []
  else []

/-! ### Concrete fixtures used by the theorems below -/

/-- A five-row postal-code dataset exercising each branch of the PLZ
format rule. -/
def dfPLZ : DataFrame :=
  { cols := ["plz"],
    rows := [[.str "8001"], [.str "800"], [.str "ABCD"], [.str "12000"], [.str "8001.0"]] }

/-- A one-row postal-code dataset holding the value 12000. -/
def dfPLZ12000 : DataFrame := { cols := ["plz"], rows := [[.str "12000"]] }

/-- The three-row coordinate dataset of the Swiss-bounds examples:
an LV95-range pair, an undetectable pair and a WGS84-range pair. -/
def dfCoord : DataFrame :=
  { cols := ["easting", "northing"],
    rows := [[.int 2600000, .int 1200000], [.int 1000000, .int 500000], [.float { num := 75, den := 10 }, .float { num := 469, den := 10 }]] }

/-- A one-row coordinate dataset holding the pair (1000000, 500000). -/
def dfCoordOut : DataFrame :=
  { cols := ["easting", "northing"], rows := [[.int 1000000, .int 500000]] }

/-- An EGID dataset with values 123, 123, 456 in row order. -/
def dfEgid : DataFrame :=
  { cols := ["egid"], rows := [[.int 123], [.int 123], [.int 456]] }

/-- A dataset whose only column is spelled PLZ in upper case. -/
def dfUpper : DataFrame := { cols := ["PLZ"], rows := [] }

/-- A dataset with one mapped numeric column, for the mutation test. -/
def dfMut : DataFrame := { cols := ["PLZ"], rows := [[.str "8001"]] }

/-- A configuration whose options bag holds an (empty) numeric_columns
list and maps the logical plz column. -/
def cfgMut : Config :=
  { columns := [("plz", "PLZ")], options := { numeric_columns := some [] } }

/-- A result holding one finding whose rule id has second segment
CUSTOM. -/
def resCustom : ValidationResult :=
  { total_rows := 1,
    errors := [{ row_index := 0, column := "c", rule_id := "R-CUSTOM-01",
                 rule_name := "n", severity := .ERROR, message := "m" }] }

/-- A result holding one finding whose rule id has no second
dash-separated segment. -/
def resNoDash : ValidationResult :=
  { total_rows := 1,
    errors := [{ row_index := 0, column := "c", rule_id := "NODASH",
                 rule_name := "n", severity := .ERROR, message := "m" }] }

/-- The category names appearing as values of the cat_map table. -/
def CATS : List String := ["address", "coordinates", "egid", "general", "custom"]

/-- Applicability as the specification's words describe it (spec 4.1
default policy), for comparison with the source's is_applicable: each
required column resolved through the mapping must match a dataset column
case-sensitively or, failing that, case-insensitively. -/
def claimedApplicable (df : DataFrame) (config : Config) (required_columns : List String) : Bool :=
  required_columns.all (fun required =>
    let actual := lookupCol config.columns required
    df.cols.contains actual || df.cols.any (fun col => pyLower col == pyLower actual))

/-! ### Claim theorems -/

/-- Claim C2 (code bug): a full validation run is claimed to leave the
caller's configuration unchanged, but DataTypeConsistencyRule.validate
appends the mapped PLZ column to the caller-owned
options.numeric_columns list through dict aliasing: on a dataset with a
mapped PLZ column and a config whose options bag holds numeric_columns
= [], the post-call config holds numeric_columns = ["PLZ"]. -/
theorem data_type_consistency_mutates_config :
    cfgMut.options.numeric_columns = some [] ∧
    (DataTypeConsistencyRule_run dfMut cfgMut).2.options.numeric_columns = some ["PLZ"] ∧
    (DataTypeConsistencyRule_run dfMut cfgMut).2 ≠ cfgMut := by decide

/-- Claim C3 counterexample: with required logical column plz, an empty
mapping and a dataset whose only column is PLZ, the spec-worded policy
(case-insensitive fallback) accepts while the source's is_applicable
(case-sensitive membership only) rejects — even though get_column would
resolve the column case-insensitively. -/
theorem is_applicable_case_fallback_refuted :
    claimedApplicable dfUpper {} ["plz"] = true ∧
    is_applicable dfUpper {} ["plz"] = false ∧
    get_column dfUpper {} "plz" = some "PLZ" := by decide

/-- Claim C3 amended: the default is_applicable returns true exactly when
every required logical name, resolved through the config's column
mapping (falling back to the logical name itself), is a dataset column
case-sensitively; there is no case-insensitive fallback. -/
theorem is_applicable_case_sensitive_iff (df : DataFrame) (config : Config)
    (required_columns : List String) :
    is_applicable df config required_columns = true ↔
      ∀ required ∈ required_columns, lookupCol config.columns required ∈ df.cols := by
  simp [is_applicable, List.all_eq_true]

/-- Claim C5 counterexample: the postal-code value 12000 is all-digit of
length 5, so the rule emits the 4-digit length finding, not the claimed
out-of-range finding. -/
theorem plz_12000_length_not_range :
    (PLZFormatRule_validate dfPLZ12000 {}).map (fun e => e.message) =
      ["PLZ muss 4-stellig sein: \x2712000\x27 (5 Stellen)"] ∧
    (PLZFormatRule_validate dfPLZ12000 {}).map (fun e => e.message) ≠
      ["PLZ ausserhalb gültiger Bereich: \x2712000\x27 (muss 1000-9999 sein)"] := by decide

/-- Claim C5 amended: on the five example values, 8001 and 8001.0 yield
no finding (the latter normalizes to 8001), 800 yields a length finding,
ABCD a not-numeric finding, and 12000 a length finding (five digits),
the out-of-range branch being unreachable for it since length is checked
first. -/
theorem plz_format_examples :
    (PLZFormatRule_validate dfPLZ {}).map (fun e => (e.row_index, e.message)) =
      [(1, "PLZ muss 4-stellig sein: \x27800\x27 (3 Stellen)"),
       (2, "PLZ muss numerisch sein: \x27ABCD\x27"),
       (3, "PLZ muss 4-stellig sein: \x2712000\x27 (5 Stellen)")] := by decide

/-- Claim C6 counterexample: the pair (1000000, 500000) lies in neither
detection range, so with an unforced coordinate system the rule emits
one system-not-detectable finding and skips the bounds check — not the
claimed two per-axis findings. -/
theorem swiss_bounds_undetected_single_finding :
    (SwissBoundsRule_validate dfCoordOut {}).map (fun e => e.message) =
      ["Koordinatensystem nicht erkennbar: E=1000000.0, N=500000.0"] ∧
    (SwissBoundsRule_validate dfCoordOut {}).length ≠ 2 := by decide

/-- Claim C6 amended: on the three example rows with no forced
coordinate system, (2600000, 1200000) is detected as LV95 and in
bounds (no finding), (1000000, 500000) triggers auto-detection failure
(exactly one finding, bounds skipped), and (7.5, 46.9) is detected as
WGS84 and in bounds (no finding). -/
theorem swiss_bounds_examples :
    (SwissBoundsRule_validate dfCoord {}).map (fun e => (e.row_index, e.message)) =
      [(1, "Koordinatensystem nicht erkennbar: E=1000000.0, N=500000.0")] := by decide

/-- Claim C7: on EGID values 123, 123, 456 the uniqueness rule emits
exactly one finding, attached to row index 1, whose message lists the
display rows of all occurrences and in particular references display
row 2, the first occurrence at index 0 offset by 2. -/
theorem egid_uniqueness_example :
    EGIDUniquenessRule_validate dfEgid {} =
      [{ row_index := 1, column := "egid", rule_id := "R-EGID-02",
         rule_name := "EGID-Eindeutigkeit", severity := .WARNING,
         message := "EGID \x27123\x27 kommt mehrfach vor (Zeilen: 2, 3)",
         value := some (.str "123"),
         suggestion := some "Prüfen Sie, ob es sich um Duplikate oder verschiedene Einheiten handelt" }] ∧
    ((EGIDUniquenessRule_validate dfEgid {}).map
      (fun e => strContains e.message ("Zeilen: " ++ toString (0 + 2)))) = [true] := by decide

/-- Claim C8 counterexample: a finding whose rule id has second segment
CUSTOM is tallied under custom, not under general as claimed; and a
finding whose rule id has no second segment is not tallied at all, so
the per-category counts (sum 0) do not sum to the total number of
findings (1). -/
theorem errors_by_category_refuted :
    resCustom.get_errors_by_category "general" = 0 ∧
    resCustom.get_errors_by_category "custom" = 1 ∧
    (CATS.map resNoDash.get_errors_by_category).sum = 0 ∧
    resNoDash.errors.length = 1 := by decide

/-- Claim C9 counterexample: the default registry does not hold 13
rules. -/
theorem default_registry_count_not_13 :
    (create_default_registry.map (fun r => r.metadata.id)).length ≠ 13 := by decide

/-- Claim C9 amended: create_default_registry registers exactly 14 rules
with 14 distinct rule ids. -/
theorem default_registry_count_14 :
    (create_default_registry.map (fun r => r.metadata.id)).length = 14 ∧
    (create_default_registry.map (fun r => r.metadata.id)).Nodup := by decide

/-- Claim C4: passed_rows equals total_rows minus the number of distinct
row indices carrying at least one ERROR finding, and the serialized
pass_rate is passed_rows / total_rows × 100 rounded to one decimal, 100
when total_rows is 0. -/
theorem passed_rows_pass_rate_spec (r : ValidationResult) :
    r.passed_rows = (r.total_rows : Int) -
      (((r.errors.filter (fun e => e.severity == Severity.ERROR)).map
        (fun e => e.row_index)).toFinset.card : Int) ∧
    r.pass_rate =
      (if 0 < r.total_rows then
        round1 ((((r.total_rows : Int) -
          (((r.errors.filter (fun e => e.severity == Severity.ERROR)).map
            (fun e => e.row_index)).toFinset.card : Int)) : ℚ) / (r.total_rows : ℚ) * 100)
      else 100) := by
  have h := List.card_toFinset
    ((r.errors.filter (fun e => e.severity == Severity.ERROR)).map (fun e => e.row_index))
  constructor
  · unfold ValidationResult.passed_rows
    rw [h]
  · unfold ValidationResult.pass_rate ValidationResult.passed_rows
    rw [h]
    norm_cast

/-- Every value of the cat_map table is one of the five category
names. -/
theorem catName_mem (s : String) : catName s ∈ CATS := by
  unfold catName CATS
  repeat' split
  all_goals simp

/-- Sums of pointwise sums of mapped lists split. -/
theorem sum_map_add_nat (l : List String) (f g : String → Nat) :
    (l.map (fun x => f x + g x)).sum = (l.map f).sum + (l.map g).sum := by
  induction l with
  | nil => rfl
  | cons a t ih => simp only [List.map_cons, List.sum_cons, ih]; omega

/-- A tally over the five category names counts one element exactly when
its category is defined. -/
theorem per_elem_tally (o : Option String) (h : ∀ c, o = some c → c ∈ CATS) :
    (CATS.map (fun cat => if o == some cat then 1 else 0)).sum =
      if o.isSome then 1 else 0 := by
  cases o with
  | none => rfl
  | some c =>
      have hc : c ∈ CATS := h c rfl
      simp only [CATS, List.mem_cons, List.not_mem_nil, or_false] at hc
      rcases hc with rfl | rfl | rfl | rfl | rfl
      all_goals decide

/-- The per-category tallies of a finding list sum to the number of
findings whose rule id determines a category. -/
theorem tally_eq_isSome (es : List ValidationError) :
    (CATS.map (fun cat =>
      (es.filter (fun e => categoryOfRuleId e.rule_id == some cat)).length)).sum =
      (es.filter (fun e => (categoryOfRuleId e.rule_id).isSome)).length := by
  induction es with
  | nil => rfl
  | cons e tl ih =>
      have hC : ∀ c, categoryOfRuleId e.rule_id = some c → c ∈ CATS := by
        intro c hc
        unfold categoryOfRuleId at hc
        split at hc
        · injection hc with hcc
          rw [← hcc]
          exact catName_mem _
        · exact absurd hc (by simp)
      have hmap : CATS.map (fun cat =>
          ((e :: tl).filter (fun x => categoryOfRuleId x.rule_id == some cat)).length) =
          CATS.map (fun cat => (if categoryOfRuleId e.rule_id == some cat then 1 else 0) +
            (tl.filter (fun x => categoryOfRuleId x.rule_id == some cat)).length) := by
        apply List.map_congr_left
        intro cat _
        by_cases hp : (categoryOfRuleId e.rule_id == some cat) = true
        · simp only [List.filter_cons, hp, if_true, List.length_cons]
          omega
        · simp only [List.filter_cons, hp, if_false]
          simp [hp]
      rw [hmap, sum_map_add_nat, per_elem_tally _ hC, ih]
      by_cases hq : (categoryOfRuleId e.rule_id).isSome = true
      · simp only [List.filter_cons, hq, if_true, List.length_cons]
        omega
      · simp only [List.filter_cons, hq, if_false]
        simp [hq]

/-- Claim C8 amended: errors_by_category tallies each finding whose rule
id has a second dash-separated segment, mapping ADDR, COORD, EGID, GEN
to their category names, CUSTOM to custom (not general) and any other
segment to general; findings whose rule id lacks a second segment are
not tallied, so the per-category counts sum to the number of findings
with at least two segments. -/
theorem errors_by_category_sum (r : ValidationResult) :
    (CATS.map r.get_errors_by_category).sum =
      (r.errors.filter (fun e => 2 ≤ (pySplitOnChar '-' e.rule_id).length)).length := by
  have h2 : (CATS.map r.get_errors_by_category).sum =
      (r.errors.filter (fun e => (categoryOfRuleId e.rule_id).isSome)).length :=
    tally_eq_isSome r.errors
  rw [h2]
  congr 1
  apply List.filter_congr
  intro e _
  by_cases hc : 2 ≤ (pySplitOnChar '-' e.rule_id).length
  · simp [categoryOfRuleId, hc]
  · simp [categoryOfRuleId, hc]

/-- The errors an engine loop accumulates are exactly the concatenated
findings of the applicable, successfully executed rules, in order. -/
theorem runRules_errors (df : DataFrame) (config : Config) (l : List RuleSpec) :
    (runRules df config l).1 = l.flatMap (ruleFindings df config) := by
  induction l with
  | nil => rfl
  | cons r rest ih =>
      simp only [runRules, List.flatMap_cons, ruleFindings]
      by_cases h : r.applicable df config = true
      · cases hr : r.run df config with
        | ok es => simp [h, hr, ih]
        | error m => simp [h, hr, ih]
      · simp [h, ih]

/-- A rule that is applicable but whose execution fails lands in the
skipped list. -/
theorem runRules_skipped_of_error (df : DataFrame) (config : Config)
    {l : List RuleSpec} {r : RuleSpec} {msg : String} (hmem : r ∈ l)
    (happ : r.applicable df config = true) (herr : r.run df config = Except.error msg) :
    r.metadata.id ∈ (runRules df config l).2.2 := by
  induction l with
  | nil => cases hmem
  | cons q rest ih =>
      rcases List.mem_cons.mp hmem with rfl | hmem'
      · simp [runRules, happ, herr]
      · have htail := ih hmem'
        simp only [runRules]
        by_cases hq : q.applicable df config = true
        · cases hqr : q.run df config with
          | ok es => simpa [hq, hqr] using htail
          | error m =>
              simp only [hq, hqr, if_true]
              exact List.mem_cons_of_mem _ htail
        · simp only [hq, if_false, Bool.false_eq_true]
          exact List.mem_cons_of_mem _ htail

/-- Every id in the executed list belongs to an applicable rule of the
list whose execution succeeded. -/
theorem runRules_executed_sound (df : DataFrame) (config : Config)
    {l : List RuleSpec} {a : String} (h : a ∈ (runRules df config l).2.1) :
    ∃ q ∈ l, q.metadata.id = a ∧ q.applicable df config = true ∧
      ∃ es, q.run df config = Except.ok es := by
  induction l with
  | nil => cases h
  | cons q rest ih =>
      simp only [runRules] at h
      by_cases hq : q.applicable df config = true
      · cases hqr : q.run df config with
        | ok es =>
            rw [hq] at h
            simp only [hqr, if_true] at h
            rcases List.mem_cons.mp h with rfl | h'
            · exact ⟨q, List.mem_cons_self q rest, rfl, hq, es, hqr⟩
            · obtain ⟨p, hp, hid, hpa, fs, hpr⟩ := ih h'
              exact ⟨p, List.mem_cons_of_mem _ hp, hid, hpa, fs, hpr⟩
        | error m =>
            rw [hq] at h
            simp only [hqr, if_true] at h
            obtain ⟨p, hp, hid, hpa, fs, hpr⟩ := ih h
            exact ⟨p, List.mem_cons_of_mem _ hp, hid, hpa, fs, hpr⟩
      · simp only [hq, if_false, Bool.false_eq_true] at h
        obtain ⟨p, hp, hid, hpa, fs, hpr⟩ := ih h
        exact ⟨p, List.mem_cons_of_mem _ hp, hid, hpa, fs, hpr⟩

/-- Claim C1: fault isolation of the engine. Engine.validate is a total
function (the exception is confined to the Except value of the rule and
never reaches the caller); for every registry (with its dict-given
distinct rule ids), dataset and config, a rule that is applicable but
whose validate fails is recorded in rules_skipped and not in
rules_executed, and the result's findings are exactly the concatenated
findings of the successfully executed rules — so the failing rule
contributes none and findings of rules after it are still present. -/
theorem engine_fault_isolation (registry : List RuleSpec) (df : DataFrame) (config : Config)
    (r : RuleSpec) (msg : String)
    (hnodup : (registry.map (fun q => q.metadata.id)).Nodup)
    (hmem : r ∈ registry)
    (happ : r.applicable df config = true)
    (herr : r.run df config = Except.error msg) :
    r.metadata.id ∈ (ValidationEngine.validate registry df config none).rules_skipped ∧
    r.metadata.id ∉ (ValidationEngine.validate registry df config none).rules_executed ∧
    (ValidationEngine.validate registry df config none).errors =
      registry.flatMap (ruleFindings df config) := by
  refine ⟨?_, ?_, ?_⟩
  · exact runRules_skipped_of_error df config hmem happ herr
  · intro hexec
    obtain ⟨q, hq, hid, _, es, hqr⟩ :=
      runRules_executed_sound df config (l := registry) hexec
    have hqe : q = r := List.inj_on_of_nodup_map hnodup hq hmem hid
    rw [hqe, herr] at hqr
    exact Except.noConfusion hqr
  · exact runRules_errors df config registry

/-- A finding produced by the second witness rule. -/
def wFinding : ValidationError :=
  { row_index := 0, column := "c", rule_id := "W-GOOD-01", rule_name := "Good",
    severity := .ERROR, message := "ok" }

/-- A rule whose execution always fails. -/
def wBadRule : RuleSpec :=
  { metadata := { id := "W-BAD-01", name := "Failing", name_de := "Fehlschlagend",
                  description := "always raises", description_de := "wirft immer",
                  category := .GENERAL, severity := .ERROR },
    applicable := fun _ _ => true,
    run := fun _ _ => Except.error "boom" }

/-- A rule that always succeeds with one finding. -/
def wGoodRule : RuleSpec :=
  { metadata := { id := "W-GOOD-01", name := "Succeeding", name_de := "Erfolgreich",
                  description := "always succeeds", description_de := "immer erfolgreich",
                  category := .GENERAL, severity := .ERROR },
    applicable := fun _ _ => true,
    run := fun _ _ => Except.ok [wFinding] }

/-- A registry holding the failing rule before the succeeding one. -/
def wRegistry : List RuleSpec := [wBadRule, wGoodRule]

/-- An empty dataset for the witness run. -/
def wDf : DataFrame := { cols := [], rows := [] }

/-- Witness for claim C1: on a concrete registry whose first rule fails
and whose second succeeds, the failing rule id is skipped, not executed,
and the run keeps the succeeding rule's findings. -/
theorem engine_fault_isolation_witness :
    "W-BAD-01" ∈ (ValidationEngine.validate wRegistry wDf {} none).rules_skipped ∧
    "W-BAD-01" ∉ (ValidationEngine.validate wRegistry wDf {} none).rules_executed ∧
    (ValidationEngine.validate wRegistry wDf {} none).errors =
      wRegistry.flatMap (ruleFindings wDf {}) :=
  engine_fault_isolation wRegistry wDf {} wBadRule "boom" (by decide)
    (List.mem_cons_self _ _) rfl rfl

/-- Claim C10: calling Engine.validate with an empty rule_ids list is
identical to calling it with rule_ids absent — the empty list is falsy
in the `if rule_ids:` test, so every registered rule is considered. -/
theorem empty_rule_ids_equals_none (registry : List RuleSpec) (df : DataFrame)
    (config : Config) :
    ValidationEngine.validate registry df config (some []) =
      ValidationEngine.validate registry df config none := rfl

end GeoDataCheck
